import Mathlib

/-!
Shallow embedding of the MultiNEAT gene layer (`src/src/Genes.h`): the trait
variation engine (`InitTraits`, `MateTraits`, `MutateTraits`,
`GetTraitDistances`) of the base `Gene` class, and the `LinkGene` /
`NeuronGene` classes built on top of it.

Modelling conventions:
* C++ `double` is modelled as `Rat` (exact arithmetic); C++ `int` as `Int`.
* The RNG (`RNG &a_RNG`) is modelled as an oracle: a structure of functions
  indexed by a global draw counter.  Every primitive call (`RandFloat`,
  `RandFloatSigned`, `RandInt`, `Roulette`) consumes one counter position, so
  the order of draws in the source is reflected exactly.
* `std::map<std::string, Trait>` is modelled as an association list with
  lookup by key equality; insertion replaces in place or appends.  The
  claims never observe the iteration order of a receiver's bag, only lookups
  and insertions, so the sortedness of `std::map` is not modelled.
* C++ exceptions (`throw std::runtime_error`, `boost::bad_get`) are modelled
  with `Except String`.
-/

namespace NEAT

/-- The tagged union `TraitType` of trait values: Int / Bool / Real / Enum
(declared in `Traits.h` as a `boost::variant`). -/
inductive TraitType where
  | int (i : Int)
  | bool (b : Bool)
  | float (x : Rat)
  | str (s : String)
  deriving DecidableEq, Repr

/-- Discriminant of a `TraitType` value, modelling `value.type()` checks. -/
inductive TraitKind where
  | kInt
  | kBool
  | kFloat
  | kStr
  deriving DecidableEq, Repr

def TraitType.kind : TraitType → TraitKind
  | .int _ => .kInt
  | .bool _ => .kBool
  | .float _ => .kFloat
  | .str _ => .kStr

/-- A `Trait` holds one `TraitType` value (`Trait::value` in `Traits.h`). -/
structure Trait where
  value : TraitType
  deriving DecidableEq, Repr

/-- Modelled from the spec: `Traits.h` is not among the provided sources.
The spec lists the tagged union's variants in the order Int, Bool, Real,
Enum; a default-constructed `boost::variant` holds its first alternative
value-initialized, so a default-constructed `Trait` holds `Int 0`. -/
def defaultTrait : Trait := ⟨.int 0⟩

/-- `IntTraitParameters` from `Traits.h`; the fields read by `Genes.h`. -/
structure IntTraitParameters where
  min : Int
  max : Int
  mut_power : Int
  mut_replace_prob : Rat
  deriving DecidableEq, Repr

/-- `FloatTraitParameters` from `Traits.h`; the fields read by `Genes.h`. -/
structure FloatTraitParameters where
  min : Rat
  max : Rat
  mut_power : Rat
  mut_replace_prob : Rat
  deriving DecidableEq, Repr

/-- `StringTraitParameters` from `Traits.h`: the candidate set and the
parallel selection weights. -/
structure StringTraitParameters where
  set : List String
  probs : List Rat
  deriving DecidableEq, Repr

/-- The variant held in `TraitParameters::m_Details`.  Modelled from the
spec for the Bool case: a Bool spec carries no extra parameters. -/
inductive TraitDetails where
  | intD (p : IntTraitParameters)
  | boolD
  | floatD (p : FloatTraitParameters)
  | stringD (p : StringTraitParameters)
  deriving DecidableEq, Repr

/-- `TraitParameters` from `Traits.h`: the per-trait spec; the fields read
by `Genes.h` are the kind string `type`, `m_MutationProb` and `m_Details`. -/
structure TraitParameters where
  type : String
  m_MutationProb : Rat
  m_Details : TraitDetails
  deriving DecidableEq, Repr

/-- `bs::get<IntTraitParameters>` on the details variant; throws
`boost::bad_get` on a mismatching alternative. -/
def bsGetIntP : TraitDetails → Except String IntTraitParameters
  | .intD p => .ok p
  | _ => .error "boost::bad_get"

/-- `bs::get<FloatTraitParameters>` on the details variant. -/
def bsGetFloatP : TraitDetails → Except String FloatTraitParameters
  | .floatD p => .ok p
  | _ => .error "boost::bad_get"

/-- `bs::get<StringTraitParameters>` on the details variant. -/
def bsGetStringP : TraitDetails → Except String StringTraitParameters
  | .stringD p => .ok p
  | _ => .error "boost::bad_get"

/-- `bs::get<int>` on a trait value. -/
def bsGetInt : TraitType → Except String Int
  | .int i => .ok i
  | _ => .error "boost::bad_get"

/-- `bs::get<bool>` on a trait value. -/
def bsGetBool : TraitType → Except String Bool
  | .bool b => .ok b
  | _ => .error "boost::bad_get"

/-- `bs::get<double>` on a trait value. -/
def bsGetFloat : TraitType → Except String Rat
  | .float x => .ok x
  | _ => .error "boost::bad_get"

/-- The trait bag `std::map<std::string, Trait> m_Traits`, modelled as an
association list with unique keys. -/
abbrev TraitMap := List (String × Trait)

/-- Key lookup (`std::map::find`). -/
def mapFind : TraitMap → String → Option Trait
  | [], _ => none
  | (k', v) :: rest, k => if k = k' then some v else mapFind rest k

/-- Insertion (`m[k] = v`): replaces the entry in place when the key is
present, otherwise adds a new entry. -/
def alInsert {α : Type} : List (String × α) → String → α → List (String × α)
  | [], k, v => [(k, v)]
  | (k', v') :: rest, k, v =>
    if k = k' then (k, v) :: rest else (k', v') :: alInsert rest k v

/-- `std::map::operator[]`: returns the entry for the key, default-inserting
a `Trait` first when the key is absent.  Returns the (possibly grown) map
together with the entry read. -/
def mapIndex (m : TraitMap) (k : String) : TraitMap × Trait :=
  match mapFind m k with
  | some t => (m, t)
  | none => (alInsert m k defaultTrait, defaultTrait)

/-- The RNG service (`RNG &a_RNG`), as an oracle indexed by a global draw
counter: `RandFloat n` is the value returned by the `n`-th primitive call
when that call is `RandFloat()`, and so on.  Each call consumes one counter
position. -/
structure RNG where
  RandFloat : Nat → Rat
  RandFloatSigned : Nat → Rat
  RandInt : Nat → Int → Int → Int
  Roulette : Nat → List Rat → Nat

/-- `RandFloat` returns values in `[0, 1)`. -/
def RNG.FloatOk (r : RNG) : Prop := ∀ n, 0 ≤ r.RandFloat n ∧ r.RandFloat n < 1

/-- `RandInt lo hi` returns values in `[lo, hi]` whenever `lo ≤ hi`. -/
def RNG.IntOk (r : RNG) : Prop :=
  ∀ n lo hi, lo ≤ hi → lo ≤ r.RandInt n lo hi ∧ r.RandInt n lo hi ≤ hi

/-- Modelled from the spec: `Utils.h` is not among the provided sources.
`Scale v a b tr_a tr_b` maps `v` affinely from `[a, b]` onto `[tr_a, tr_b]`
("scaling a unit-uniform draw into the bound range"). -/
def Scale (v a b tr_a tr_b : Rat) : Rat :=
  (v - a) / (b - a) * (tr_b - tr_a) + tr_a

/-- Modelled from the spec: `Utils.h` is not among the provided sources.
`Clamp a lo hi` forces a value into `[lo, hi]`: first raises it to `lo` if
below, then lowers it to `hi` if above. -/
def Clamp {α : Type} [LinearOrder α] (a lo hi : α) : α :=
  let a' := if a < lo then lo else a
  if a' > hi then hi else a'

/-- One iteration of `Gene::InitTraits` (`Genes.h` lines 113–149) for the
spec entry `(name, p)`: build a `TraitType` according to the declared kind
string, then store it in the bag.  When the kind string matches none of the
four supported kinds, `t` keeps its default-constructed value and the store
still happens. -/
def initOne (r : RNG) (c : Nat) (name : String) (p : TraitParameters)
    (m : TraitMap) : Except String (TraitMap × Nat) :=
  if p.type = "int" then do
    let itp ← bsGetIntP p.m_Details
    .ok (alInsert m name ⟨.int (r.RandInt c itp.min itp.max)⟩, c + 1)
  else if p.type = "bool" then
    .ok (alInsert m name ⟨.bool (decide (r.RandFloat c < 1/2))⟩, c + 1)
  else if p.type = "float" then do
    let itp ← bsGetFloatP p.m_Details
    let x := Scale (r.RandFloat c) 0 1 itp.min itp.max
    .ok (alInsert m name ⟨.float x⟩, c + 1)
  else if p.type = "string" then do
    let itp ← bsGetStringP p.m_Details
    let idx := r.Roulette c itp.probs
    .ok (alInsert m name ⟨.str (itp.set.getD idx "")⟩, c + 1)
  else
    .ok (alInsert m name defaultTrait, c)

/-- `Gene::InitTraits(tp, a_RNG)`: iterate `initOne` over the spec table
(the table is supplied as a list, in the iteration order of the C++ map). -/
def InitTraits (r : RNG) : List (String × TraitParameters) → Nat → TraitMap →
    Except String (TraitMap × Nat)
  | [], c, m => .ok (m, c)
  | (n, p) :: rest, c, m => do
    let (m', c') ← initOne r c n p m
    InitTraits r rest c' m'

/-- One iteration of `Gene::MateTraits` (`Genes.h` lines 152–195) for the
other parent's entry `(name, tr)`.  Reading `m_Traits[it->first]` uses
`operator[]`, default-inserting when the key is absent.  A kind mismatch
throws.  Otherwise a coin flip picks between "pick either one" and "try to
average" — but in the source the `double` and `string` tests sit *after*
(outside) the if/else, so they run in both branches. -/
def mateOne (r : RNG) (c : Nat) (name : String) (tr : Trait)
    (m0 : TraitMap) : Except String (TraitMap × Nat) :=
  let res := mapIndex m0 name
  let m := res.1
  let mine := res.2.value
  let yours := tr.value
  if mine.kind = yours.kind then
    let s1 : TraitMap × Nat :=
      if r.RandFloat c < 1/2 then
        -- pick either one
        (alInsert m name ⟨if r.RandFloat (c+1) < 1/2 then mine else yours⟩,
         c + 2)
      else
        -- try to average
        match mine, yours with
        | .int m1, .int m2 =>
            (alInsert m name ⟨.int (Int.tdiv (m1 + m2) 2)⟩, c + 1)
        | .bool _, _ =>
            -- bools are always either-or
            (alInsert m name
              ⟨if r.RandFloat (c+1) < 1/2 then mine else yours⟩, c + 2)
        | _, _ => (m, c + 1)
    -- in the source these two tests are outside the else branch above
    match mine, yours with
    | .float m1, .float m2 =>
        .ok (alInsert s1.1 name ⟨.float ((m1 + m2) / 2)⟩, s1.2)
    | .str _, _ =>
        -- strings are always either-or
        .ok (alInsert s1.1 name
          ⟨if r.RandFloat s1.2 < 1/2 then mine else yours⟩, s1.2 + 1)
    | _, _ => .ok s1
  else .error "Types of traits doesn't match"

/-- `Gene::MateTraits(t, a_RNG)`: iterate `mateOne` over the other parent's
bag (supplied as a list, in the iteration order of the C++ map). -/
def MateTraits (r : RNG) : List (String × Trait) → Nat → TraitMap →
    Except String (TraitMap × Nat)
  | [], c, m => .ok (m, c)
  | (n, tr) :: rest, c, m => do
    let (m', c') ← mateOne r c n tr m
    MateTraits r rest c' m'

/-- One iteration of `Gene::MutateTraits` (`Genes.h` lines 199–296) for the
spec entry `(name, p)`.  Int/float: a Bernoulli(`m_MutationProb`) trigger,
then a Bernoulli(`mut_replace_prob`) choice between replace and modify
(perturb + clamp).  Bool: a trigger, then a second fair coin; the bit flips
only when that second draw is below one half.  String: no trigger at all —
the weighted re-roll runs unconditionally. -/
def mutateOne (r : RNG) (c : Nat) (name : String) (p : TraitParameters)
    (m : TraitMap) : Except String (TraitMap × Nat) :=
  if p.type = "int" then do
    let itp ← bsGetIntP p.m_Details
    if r.RandFloat c < p.m_MutationProb then
      if r.RandFloat (c+1) < itp.mut_replace_prob then
        -- replace
        let val := r.RandInt (c+2) itp.min itp.max
        .ok (alInsert m name ⟨.int val⟩, c + 3)
      else do
        -- modify
        let q := mapIndex m name
        let val ← bsGetInt q.2.value
        let val := val + r.RandInt (c+2) (-itp.mut_power) itp.mut_power
        let val := Clamp val itp.min itp.max
        .ok (alInsert q.1 name ⟨.int val⟩, c + 3)
    else .ok (m, c + 1)
  else if p.type = "bool" then
    if r.RandFloat c < p.m_MutationProb then
      if r.RandFloat (c+1) < 1/2 then do
        -- flip it
        let q := mapIndex m name
        let val ← bsGetBool q.2.value
        .ok (alInsert q.1 name ⟨.bool (!val)⟩, c + 2)
      else .ok (m, c + 2)
    else .ok (m, c + 1)
  else if p.type = "float" then do
    let itp ← bsGetFloatP p.m_Details
    if r.RandFloat c < p.m_MutationProb then
      if r.RandFloat (c+1) < itp.mut_replace_prob then
        -- replace
        let val := Scale (r.RandFloat (c+2)) 0 1 itp.min itp.max
        .ok (alInsert m name ⟨.float val⟩, c + 3)
      else do
        -- modify
        let q := mapIndex m name
        let val ← bsGetFloat q.2.value
        let val := val + r.RandFloatSigned (c+2) * itp.mut_power
        let val := Clamp val itp.min itp.max
        .ok (alInsert q.1 name ⟨.float val⟩, c + 3)
    else .ok (m, c + 1)
  else if p.type = "string" then do
    let itp ← bsGetStringP p.m_Details
    let idx := r.Roulette c itp.probs
    -- now choose the new idx from the set
    .ok (alInsert m name ⟨.str (itp.set.getD idx "")⟩, c + 1)
  else
    .ok (m, c)

/-- `Gene::MutateTraits(tp, a_RNG)`: iterate `mutateOne` over the spec
table. -/
def MutateTraits (r : RNG) : List (String × TraitParameters) → Nat →
    TraitMap → Except String (TraitMap × Nat)
  | [], c, m => .ok (m, c)
  | (n, p) :: rest, c, m => do
    let (m', c') ← mutateOne r c n p m
    MutateTraits r rest c' m'

/-- One iteration of `Gene::GetTraitDistances` (`Genes.h` lines 299–349)
for the other bag's entry `(name, tr)`.  Reading `m_Traits[it->first]` uses
`operator[]`, so the receiver's bag can grow; a kind mismatch throws;
otherwise the per-kind distance is stored in the result map. -/
def distOne (name : String) (tr : Trait) (m0 : TraitMap)
    (d : List (String × Rat)) :
    Except String (TraitMap × List (String × Rat)) :=
  let res := mapIndex m0 name
  let m := res.1
  let mine := res.2.value
  let yours := tr.value
  if mine.kind = yours.kind then
    let dv : Rat :=
      match mine, yours with
      | .int m1, .int m2 => ((m1 - m2).natAbs : Rat)
      | .bool b1, .bool b2 => if b1 = b2 then 0 else 1
      | .float m1, .float m2 => |m1 - m2|
      | .str s1, .str s2 => if s1 = s2 then 0 else 1
      | _, _ => 0
    .ok (m, alInsert d name dv)
  else .error "Types of traits doesn't match"

/-- `Gene::GetTraitDistances(other)`: iterate `distOne` over the other bag,
returning both the (possibly grown) receiver bag and the distance map. -/
def GetTraitDistances : List (String × Trait) → TraitMap →
    List (String × Rat) → Except String (TraitMap × List (String × Rat))
  | [], m, d => .ok (m, d)
  | (n, tr) :: rest, m, d => do
    let (m', d') ← distOne n tr m d
    GetTraitDistances rest m' d'

/-- `NeuronType` enumeration from `Genes.h`. -/
inductive NeuronType where
  | NONE
  | INPUT
  | BIAS
  | HIDDEN
  | OUTPUT
  deriving DecidableEq, Repr

/-- `ActivationFunction` enumeration from `Genes.h`. -/
inductive ActivationFunction where
  | SIGNED_SIGMOID
  | UNSIGNED_SIGMOID
  | TANH
  | TANH_CUBIC
  | SIGNED_STEP
  | UNSIGNED_STEP
  | SIGNED_GAUSS
  | UNSIGNED_GAUSS
  | ABS
  | SIGNED_SINE
  | UNSIGNED_SINE
  | LINEAR
  | RELU
  | SOFTPLUS
  deriving DecidableEq, Repr

/-- `LinkGene`: a `Gene` (trait bag) plus endpoints, innovation identity,
weight and recurrence flag. -/
structure LinkGene where
  m_FromNeuronID : Int
  m_ToNeuronID : Int
  m_InnovationID : Int
  m_Weight : Rat
  m_IsRecurrent : Bool
  m_Traits : TraitMap
  deriving DecidableEq, Repr

/-- `LinkGene::SetWeight`. -/
def LinkGene.SetWeight (g : LinkGene) (w : Rat) : LinkGene :=
  { g with m_Weight := w }

/-- `NeuronGene`: a `Gene` (trait bag) plus identity, role, depth, display
coordinates and the activation payload. -/
structure NeuronGene where
  m_ID : Int
  m_Type : NeuronType
  x : Int
  y : Int
  m_SplitY : Rat
  m_A : Rat
  m_B : Rat
  m_TimeConstant : Rat
  m_Bias : Rat
  m_ActFunction : ActivationFunction
  m_Traits : TraitMap
  deriving DecidableEq, Repr

/-- `NeuronGene::Init`: sets the activation payload in one shot. -/
def NeuronGene.Init (g : NeuronGene) (a b tc bias : Rat)
    (f : ActivationFunction) : NeuronGene :=
  { g with m_A := a, m_B := b, m_TimeConstant := tc, m_Bias := bias,
           m_ActFunction := f }

/-- An operation applied to a `LinkGene`: trait mutation, trait merging, or
a weight set.  Each trait operation carries its own RNG oracle and starting
draw counter. -/
inductive LinkOp where
  | mutate (tp : List (String × TraitParameters)) (r : RNG) (c : Nat)
  | mate (other : List (String × Trait)) (r : RNG) (c : Nat)
  | setWeight (w : Rat)

/-- Apply one `LinkOp` to a `LinkGene`. -/
def LinkGene.applyOp (g : LinkGene) : LinkOp → Except String LinkGene
  | .mutate tp r c =>
      (MutateTraits r tp c g.m_Traits).map fun p => { g with m_Traits := p.1 }
  | .mate other r c =>
      (MateTraits r other c g.m_Traits).map fun p => { g with m_Traits := p.1 }
  | .setWeight w => .ok (g.SetWeight w)

/-- Apply a sequence of `LinkOp`s to a `LinkGene`. -/
def LinkGene.runOps (g : LinkGene) : List LinkOp → Except String LinkGene
  | [] => .ok g
  | op :: rest => do
    let g' ← g.applyOp op
    g'.runOps rest

/-- An operation applied to a `NeuronGene`: trait mutation, trait merging,
or an activation-payload set (`NeuronGene::Init`). -/
inductive NeuronOp where
  | mutate (tp : List (String × TraitParameters)) (r : RNG) (c : Nat)
  | mate (other : List (String × Trait)) (r : RNG) (c : Nat)
  | init (a b tc bias : Rat) (f : ActivationFunction)

/-- Apply one `NeuronOp` to a `NeuronGene`. -/
def NeuronGene.applyOp (g : NeuronGene) : NeuronOp → Except String NeuronGene
  | .mutate tp r c =>
      (MutateTraits r tp c g.m_Traits).map fun p => { g with m_Traits := p.1 }
  | .mate other r c =>
      (MateTraits r other c g.m_Traits).map fun p => { g with m_Traits := p.1 }
  | .init a b tc bias f => .ok (g.Init a b tc bias f)

/-- Apply a sequence of `NeuronOp`s to a `NeuronGene`. -/
def NeuronGene.runOps (g : NeuronGene) : List NeuronOp →
    Except String NeuronGene
  | [] => .ok g
  | op :: rest => do
    let g' ← g.applyOp op
    g'.runOps rest

/-- A deterministic RNG oracle that answers every float draw with `0` and
every bounded integer draw with its lower bound. -/
def rngZero : RNG := ⟨fun _ => 0, fun _ => 0, fun _ lo _ => lo, fun _ _ => 0⟩

/-- A deterministic RNG oracle that answers every float draw with `9/10`. -/
def rngHigh : RNG := ⟨fun _ => 9/10, fun _ => 0, fun _ lo _ => lo, fun _ _ => 0⟩

/-- A deterministic RNG oracle whose roulette draws always answer index 1. -/
def rngPickOne : RNG := ⟨fun _ => 0, fun _ => 0, fun _ lo _ => lo, fun _ _ => 1⟩

/-- A deterministic RNG oracle whose first float draw is `0` and whose later
float draws are `9/10`. -/
def rngThenHigh : RNG :=
  ⟨fun n => if n = 0 then 0 else 9/10, fun _ => 0, fun _ lo _ => lo,
   fun _ _ => 0⟩

/-- A sample Enum trait spec: candidates `["a", "b"]`, weights `[0, 1]`,
mutation probability `0`. -/
def enumSpec : TraitParameters := ⟨"string", 0, .stringD ⟨["a", "b"], [0, 1]⟩⟩

/-- A sample link gene with innovation id 7 and weight 1. -/
def linkG0 : LinkGene := ⟨1, 2, 7, 1, false, []⟩

/-- The link gene produced from `linkG0` by an Enum trait mutation followed
by a weight set. -/
def linkG1 : LinkGene := ⟨1, 2, 7, 2, false, [("s", ⟨.str "a"⟩)]⟩

/-- A sample neuron gene with id 12, role Output and split depth 1. -/
def neuronG0 : NeuronGene :=
  ⟨12, .OUTPUT, 0, 0, 1, 0, 0, 0, 0, .UNSIGNED_SIGMOID, []⟩

/-- The neuron gene produced from `neuronG0` by an Enum trait mutation
followed by an activation-payload `Init`. -/
def neuronG1 : NeuronGene :=
  ⟨12, .OUTPUT, 0, 0, 1, 1, 0, 0, 0, .TANH, [("s", ⟨.str "a"⟩)]⟩

end NEAT

open NEAT

section Helpers

lemma mutateTraits_singleton (r : RNG) (n : String) (p : TraitParameters)
    (c : Nat) (m : TraitMap) :
    MutateTraits r [(n, p)] c m = mutateOne r c n p m := by
  cases h : mutateOne r c n p m with
  | ok v => simp only [MutateTraits, h]; rfl
  | error e => simp only [MutateTraits, h]; rfl

lemma mateTraits_singleton (r : RNG) (n : String) (tr : Trait)
    (c : Nat) (m : TraitMap) :
    MateTraits r [(n, tr)] c m = mateOne r c n tr m := by
  cases h : mateOne r c n tr m with
  | ok v => simp only [MateTraits, h]; rfl
  | error e => simp only [MateTraits, h]; rfl

lemma getTraitDistances_singleton (n : String) (tr : Trait) (m : TraitMap) :
    GetTraitDistances [(n, tr)] m [] = distOne n tr m [] := by
  cases h : distOne n tr m [] with
  | ok v => simp only [GetTraitDistances, h]; rfl
  | error e => simp only [GetTraitDistances, h]; rfl

lemma exceptBind_ok {α β : Type} (a : α) (f : α → Except String β) :
    ((Except.ok a : Except String α) >>= f) = f a := rfl

lemma Clamp_bounds {α : Type} [LinearOrder α] (a lo hi : α) (h : lo ≤ hi) :
    lo ≤ Clamp a lo hi ∧ Clamp a lo hi ≤ hi := by
  simp only [Clamp]
  split_ifs with h1 h2 h3 <;>
    exact ⟨by first | exact h | exact le_refl _ | exact le_of_not_lt h1,
           by first | exact h | exact le_refl _ | exact le_of_not_lt h2
                    | exact le_of_not_lt h3⟩

lemma Scale_unit_bounds (x lo hi : Rat) (h0 : 0 ≤ x) (h1 : x < 1)
    (hlh : lo ≤ hi) : lo ≤ Scale x 0 1 lo hi ∧ Scale x 0 1 lo hi ≤ hi := by
  unfold Scale
  constructor <;> nlinarith

end Helpers

lemma initTraits_singleton (r : RNG) (n : String) (p : TraitParameters)
    (c : Nat) (m : TraitMap) :
    InitTraits r [(n, p)] c m = initOne r c n p m := by
  cases h : initOne r c n p m with
  | ok v => simp only [InitTraits, h]; rfl
  | error e => simp only [InitTraits, h]; rfl

/-- C2 (counterexample): an Enum trait spec with mutation probability `0`
can never trigger, yet `MutateTraits` still re-rolls the trait: starting
from value `"a"`, a roulette draw of index 1 rewrites the value to `"b"`. -/
theorem C2_cex_enum_rerolled_without_trigger :
    MutateTraits rngPickOne [("s", enumSpec)] 0 [("s", ⟨.str "a"⟩)] =
      .ok ([("s", ⟨.str "b"⟩)], 1) ∧
    enumSpec.m_MutationProb = 0 ∧ ("b" : String) ≠ "a" := by
  exact ⟨rfl, rfl, by decide⟩

/-- C2 (amended): in `MutateTraits`, an Enum (string) trait is re-rolled
unconditionally on every call — no Bernoulli(mutation probability) draw is
consumed, and the stored value is always reassigned from a fresh weighted
roulette pick (which may repeat the old value). -/
theorem C2_enum_mutate_unconditional (r : RNG) (c : Nat) (name : String)
    (mp : Rat) (itp : StringTraitParameters) (m : TraitMap) :
    MutateTraits r [(name, ⟨"string", mp, .stringD itp⟩)] c m =
      .ok (alInsert m name ⟨.str (itp.set.getD (r.Roulette c itp.probs) "")⟩,
           c + 1) := rfl

/-- C3 (counterexample): a Bool trait whose mutation draw triggers
(`0 < 1`) is nevertheless left unchanged, because the second coin draw
(`9/10`) is not below one half — so not every trigger flips the bit. -/
theorem C3_cex_bool_trigger_no_flip :
    MutateTraits rngThenHigh [("b", ⟨"bool", 1, .boolD⟩)] 0
        [("b", ⟨.bool false⟩)] =
      .ok ([("b", ⟨.bool false⟩)], 2) ∧
    rngThenHigh.RandFloat 0 < 1 := by
  constructor
  · rw [mutateTraits_singleton]
    simp [mutateOne, rngThenHigh, mapFind, mapIndex, bsGetBool]
    norm_num
  · norm_num [rngThenHigh]

/-- C3 (amended): in `MutateTraits`, whenever the Bernoulli(mutation
probability) draw for a Bool trait triggers, a second fair coin draw is
consumed; the stored boolean is flipped only when that second draw is below
one half, and is left unchanged otherwise. -/
theorem C3_bool_trigger_second_coin (r : RNG) (c : Nat) (name : String)
    (mp : Rat) (d : TraitDetails) (m : TraitMap) (v : Bool)
    (hv : mapFind m name = some ⟨.bool v⟩)
    (htrig : r.RandFloat c < mp) :
    MutateTraits r [(name, ⟨"bool", mp, d⟩)] c m =
      .ok (if r.RandFloat (c+1) < 1/2 then alInsert m name ⟨.bool (!v)⟩
           else m, c + 2) := by
  rw [mutateTraits_singleton]
  simp [mutateOne, mapIndex, hv, bsGetBool, htrig]
  split <;> rfl

/-- C3 (witness): at the concrete no-flip input of the counterexample the
amended statement evaluates as proved. -/
theorem C3_bool_trigger_second_coin_witness :
    MutateTraits rngThenHigh [("b", ⟨"bool", 1, .boolD⟩)] 0
        [("b", ⟨.bool false⟩)] =
      .ok (if rngThenHigh.RandFloat 1 < 1/2
           then alInsert [("b", ⟨.bool false⟩)] "b" ⟨.bool true⟩
           else [("b", ⟨.bool false⟩)], 2) :=
  C3_bool_trigger_second_coin rngThenHigh 0 "b" 1 .boolD
    [("b", ⟨.bool false⟩)] false rfl (by norm_num [rngThenHigh])

/-- C4 (counterexample): for a spec whose kind string matches none of the
four supported kinds, `InitTraits` does **not** leave the bag missing that
key — it stores a default-constructed trait value under the name. -/
theorem C4_cex_unknown_kind_key_present :
    InitTraits rngZero [("t", ⟨"weird", 1, .boolD⟩)] 0 [] =
      .ok ([("t", defaultTrait)], 0) ∧
    mapFind [("t", defaultTrait)] "t" = some defaultTrait := by
  constructor
  · rw [initTraits_singleton]
    simp [initOne, alInsert]
  · rfl

/-- C4 (amended): for a trait spec whose declared kind string matches none
of the four supported kinds, `MutateTraits` silently produces no value
(bag and draw counter untouched), but `InitTraits` still stores a
default-constructed trait value (`Int 0`) under that name, so after
`InitTraits` the key is present rather than missing. -/
theorem C4_unknown_kind_init_vs_mutate (r : RNG) (c : Nat) (name : String)
    (p : TraitParameters) (m : TraitMap)
    (h1 : p.type ≠ "int") (h2 : p.type ≠ "bool") (h3 : p.type ≠ "float")
    (h4 : p.type ≠ "string") :
    InitTraits r [(name, p)] c m = .ok (alInsert m name defaultTrait, c) ∧
    MutateTraits r [(name, p)] c m = .ok (m, c) := by
  rw [initTraits_singleton, mutateTraits_singleton]
  simp [initOne, mutateOne, h1, h2, h3, h4]

/-- C4 (witness): the amended statement at the concrete spec kind
`"weird"` on the empty bag. -/
theorem C4_unknown_kind_init_vs_mutate_witness :
    InitTraits rngZero [("t", ⟨"weird", 1, .boolD⟩)] 0 [] =
      .ok (alInsert [] "t" defaultTrait, 0) ∧
    MutateTraits rngZero [("t", ⟨"weird", 1, .boolD⟩)] 0 [] = .ok ([], 0) :=
  C4_unknown_kind_init_vs_mutate rngZero 0 "t" ⟨"weird", 1, .boolD⟩ []
    (by decide) (by decide) (by decide) (by decide)

/-- C1 (code evaluated at the failing input): merging Real traits `1`
(own) and `3` (other) with both coin flips low — the first flip selects the
"pick either one" branch and the second selects own's value — still stores
the arithmetic mean `2`, not the picked parent value: in the source the
`double` case sits outside the else branch and overwrites the picked value
in both branches. -/
theorem C1_real_merge_pick_branch_still_averages :
    MateTraits rngZero [("x", ⟨.float 3⟩)] 0 [("x", ⟨.float 1⟩)] =
      .ok ([("x", ⟨.float 2⟩)], 2) ∧
    rngZero.RandFloat 0 < 1/2 ∧ rngZero.RandFloat 1 < 1/2 ∧
    TraitType.float 2 ≠ .float 1 ∧ TraitType.float 2 ≠ .float 3 := by
  refine ⟨?_, by norm_num [rngZero], by norm_num [rngZero], by norm_num,
          by norm_num⟩
  rw [mateTraits_singleton]
  simp [mateOne, mapIndex, mapFind, TraitType.kind, rngZero, alInsert]
  norm_num

/-- C5: for a matched pair of Real trait values `a` (own) and `b` (other)
under the same name, `GetTraitDistances` maps the name to the absolute
difference `|a - b|`, and the receiver's bag is unchanged. -/
theorem C5_distance_real_abs (name : String) (a b : Rat) (m : TraitMap)
    (hv : mapFind m name = some ⟨.float a⟩) :
    GetTraitDistances [(name, ⟨.float b⟩)] m [] =
      .ok (m, [(name, |a - b|)]) := by
  rw [getTraitDistances_singleton]
  simp [distOne, mapIndex, hv, TraitType.kind, alInsert]

/-- C5 (witness): distance between Real values `3` and `7/2` is `|3 - 7/2|`. -/
theorem C5_distance_real_abs_witness :
    GetTraitDistances [("d", ⟨.float (7/2)⟩)] [("d", ⟨.float 3⟩)] [] =
      .ok ([("d", ⟨.float 3⟩)], [("d", |(3 : Rat) - 7/2|)]) :=
  C5_distance_real_abs "d" 3 (7/2) [("d", ⟨.float 3⟩)] rfl

/-- C6 (counterexample): merging Int traits `-1` (own) and `-2` (other) in
the forced-average branch stores `-1` = `tdiv (-3) 2` (truncation toward
zero), which differs from `floor((-3)/2) = -2`. -/
theorem C6_cex_int_merge_negative_not_floor :
    MateTraits rngHigh [("layers", ⟨.int (-2)⟩)] 0
        [("layers", ⟨.int (-1)⟩)] =
      .ok ([("layers", ⟨.int (-1)⟩)], 1) ∧
    ¬ rngHigh.RandFloat 0 < 1/2 ∧
    (-1 : Int) ≠ Int.fdiv (-1 + -2) 2 := by
  refine ⟨?_, by norm_num [rngHigh], by decide⟩
  rw [mateTraits_singleton]
  simp [mateOne, mapIndex, mapFind, TraitType.kind, rngHigh, alInsert]
  norm_num
  decide

/-- C6 (amended): in the averaging branch of `MateTraits`, an Int trait
stores `(a + b) / 2` with C++ integer division, i.e. truncation toward
zero (`Int.tdiv`); this agrees with `floor((a+b)/2)` exactly when
`a + b ≥ 0`. -/
theorem C6_int_merge_truncates_toward_zero (r : RNG) (c : Nat)
    (name : String) (a b : Int) (m : TraitMap)
    (hv : mapFind m name = some ⟨.int a⟩)
    (havg : ¬ r.RandFloat c < 1/2) :
    MateTraits r [(name, ⟨.int b⟩)] c m =
      .ok (alInsert m name ⟨.int (Int.tdiv (a + b) 2)⟩, c + 1) ∧
    (0 ≤ a + b → Int.tdiv (a + b) 2 = Int.fdiv (a + b) 2) := by
  constructor
  · rw [mateTraits_singleton]
    simp [mateOne, mapIndex, hv, TraitType.kind, havg]
    exact le_of_not_lt (by simpa using havg)
  · intro h
    obtain ⟨k, hk⟩ : ∃ n : Nat, a + b = n := Int.eq_ofNat_of_zero_le h
    rw [hk]
    rcases k with _ | j <;> rfl

/-- C6 (witness): the amended statement at own value `4`, other value `6`:
the forced-average branch stores exactly `5`. -/
theorem C6_int_merge_truncates_toward_zero_witness :
    MateTraits rngHigh [("layers", ⟨.int 6⟩)] 0 [("layers", ⟨.int 4⟩)] =
      .ok (alInsert [("layers", ⟨.int 4⟩)] "layers" ⟨.int (Int.tdiv (4 + 6) 2)⟩,
           0 + 1) ∧
    (0 ≤ (4 : Int) + 6 → Int.tdiv ((4 : Int) + 6) 2 = Int.fdiv (4 + 6) 2) :=
  C6_int_merge_truncates_toward_zero rngHigh 0 "layers" 4 6
    [("layers", ⟨.int 4⟩)] rfl (by norm_num [rngHigh])

/-- C7: for an Int or Real trait whose current bag entry has the kind its
spec declares, whenever the mutation draw triggers, the value stored by
`MutateTraits` lies within the spec's `[min, max]` — in the replace branch
(well-formed RNG draws) and in the perturb branch (clamping) alike. -/
theorem C7_mutate_int_real_within_bounds (r : RNG) (c : Nat) (name : String)
    (m : TraitMap) (hIntOk : r.IntOk) (hFloatOk : r.FloatOk) :
    (∀ (mp : Rat) (itp : IntTraitParameters) (v : Int),
      itp.min ≤ itp.max → mapFind m name = some ⟨.int v⟩ →
      r.RandFloat c < mp →
      ∃ val, MutateTraits r [(name, ⟨"int", mp, .intD itp⟩)] c m =
          .ok (alInsert m name ⟨.int val⟩, c + 3) ∧
        itp.min ≤ val ∧ val ≤ itp.max) ∧
    (∀ (mp : Rat) (ftp : FloatTraitParameters) (v : Rat),
      ftp.min ≤ ftp.max → mapFind m name = some ⟨.float v⟩ →
      r.RandFloat c < mp →
      ∃ val, MutateTraits r [(name, ⟨"float", mp, .floatD ftp⟩)] c m =
          .ok (alInsert m name ⟨.float val⟩, c + 3) ∧
        ftp.min ≤ val ∧ val ≤ ftp.max) := by
  constructor
  · intro mp itp v hmm hv htrig
    rw [mutateTraits_singleton]
    by_cases hrep : r.RandFloat (c+1) < itp.mut_replace_prob
    · exact ⟨r.RandInt (c+2) itp.min itp.max,
        by simp [mutateOne, bsGetIntP, exceptBind_ok, htrig, hrep],
        (hIntOk _ _ _ hmm).1, (hIntOk _ _ _ hmm).2⟩
    · exact ⟨Clamp (v + r.RandInt (c+2) (-itp.mut_power) itp.mut_power)
          itp.min itp.max,
        by simp [mutateOne, bsGetIntP, exceptBind_ok, htrig, hrep, mapIndex, hv, bsGetInt],
        (Clamp_bounds _ _ _ hmm).1, (Clamp_bounds _ _ _ hmm).2⟩
  · intro mp ftp v hmm hv htrig
    rw [mutateTraits_singleton]
    by_cases hrep : r.RandFloat (c+1) < ftp.mut_replace_prob
    · exact ⟨Scale (r.RandFloat (c+2)) 0 1 ftp.min ftp.max,
        by simp [mutateOne, bsGetFloatP, exceptBind_ok, htrig, hrep],
        (Scale_unit_bounds _ _ _ (hFloatOk (c+2)).1 (hFloatOk (c+2)).2 hmm).1,
        (Scale_unit_bounds _ _ _ (hFloatOk (c+2)).1 (hFloatOk (c+2)).2 hmm).2⟩
    · exact ⟨Clamp (v + r.RandFloatSigned (c+2) * ftp.mut_power)
          ftp.min ftp.max,
        by simp [mutateOne, bsGetFloatP, exceptBind_ok, htrig, hrep, mapIndex, hv,
                 bsGetFloat],
        (Clamp_bounds _ _ _ hmm).1, (Clamp_bounds _ _ _ hmm).2⟩

/-- C7 (witness): both bound statements instantiated with the zero RNG. -/
theorem C7_mutate_int_real_within_bounds_witness :
    (∃ val, MutateTraits rngZero [("i", ⟨"int", 1, .intD ⟨0, 5, 1, 1⟩⟩)] 0
        [("i", ⟨.int 3⟩)] = .ok (alInsert [("i", ⟨.int 3⟩)] "i" ⟨.int val⟩,
          0 + 3) ∧ (0 : Int) ≤ val ∧ val ≤ 5) ∧
    (∃ val, MutateTraits rngZero
        [("f", ⟨"float", 1, .floatD ⟨0, 1, 1/20, 1⟩⟩)] 0
        [("f", ⟨.float (9/10)⟩)] =
          .ok (alInsert [("f", ⟨.float (9/10)⟩)] "f" ⟨.float val⟩, 0 + 3) ∧
        (0 : Rat) ≤ val ∧ val ≤ 1) :=
  ⟨(C7_mutate_int_real_within_bounds rngZero 0 "i" [("i", ⟨.int 3⟩)]
      (fun _ _ _ h => ⟨le_refl _, h⟩)
      (fun _ => ⟨le_refl _, by norm_num [rngZero]⟩)).1 1 ⟨0, 5, 1, 1⟩ 3
      (by decide) rfl (by norm_num [rngZero]),
   (C7_mutate_int_real_within_bounds rngZero 0 "f" [("f", ⟨.float (9/10)⟩)]
      (fun _ _ _ h => ⟨le_refl _, h⟩)
      (fun _ => ⟨le_refl _, by norm_num [rngZero]⟩)).2 1 ⟨0, 1, 1/20, 1⟩ (9/10)
      (by norm_num) rfl (by norm_num [rngZero])⟩

/-- C8: when a shared trait name maps to two values of differing kinds,
both `MateTraits` and `GetTraitDistances` fail with the distinguishable
error `"Types of traits doesn't match"` propagated to the caller; no value
is coerced or stored. -/
theorem C8_kind_mismatch_error (r : RNG) (c : Nat) (name : String)
    (v1 v2 : TraitType) (m : TraitMap)
    (hv : mapFind m name = some ⟨v1⟩)
    (hk : v1.kind ≠ v2.kind) :
    MateTraits r [(name, ⟨v2⟩)] c m =
      .error "Types of traits doesn't match" ∧
    GetTraitDistances [(name, ⟨v2⟩)] m [] =
      .error "Types of traits doesn't match" := by
  constructor
  · rw [mateTraits_singleton]
    simp [mateOne, mapIndex, hv, hk]
  · rw [getTraitDistances_singleton]
    simp [distOne, mapIndex, hv, hk]

/-- C8 (witness): own `{"speed": Int 3}` against other `{"speed": Real 3}`. -/
theorem C8_kind_mismatch_error_witness :
    MateTraits rngZero [("speed", ⟨.float 3⟩)] 0 [("speed", ⟨.int 3⟩)] =
      .error "Types of traits doesn't match" ∧
    GetTraitDistances [("speed", ⟨.float 3⟩)] [("speed", ⟨.int 3⟩)] [] =
      .error "Types of traits doesn't match" :=
  C8_kind_mismatch_error rngZero 0 "speed" (.int 3) (.float 3)
    [("speed", ⟨.int 3⟩)] rfl (by decide)

lemma alInsert_alInsert {α : Type} (m : List (String × α)) (k : String)
    (v w : α) : alInsert (alInsert m k v) k w = alInsert m k w := by
  induction m with
  | nil => simp [alInsert]
  | cons kv rest ih =>
    obtain ⟨k', v'⟩ := kv
    by_cases h : k = k' <;> simp [alInsert, h, ih]

/-- C10: calling `GetTraitDistances` or `MateTraits` with an argument bag
holding a name absent from the receiver's bag makes the receiver's bag gain
a default-constructed entry (`Int 0`) under that name, and the comparison
then runs against that default: the distance reported is `|0 - k|` and the
forced-average merge result is `(0 + k) / 2` (C++ truncating division). -/
theorem C10_absent_key_gains_default (r : RNG) (c : Nat) (name : String)
    (k : Int) (m : TraitMap) (habs : mapFind m name = none) :
    GetTraitDistances [(name, ⟨.int k⟩)] m [] =
      .ok (alInsert m name defaultTrait, [(name, (k.natAbs : Rat))]) ∧
    (¬ r.RandFloat c < 1/2 →
      MateTraits r [(name, ⟨.int k⟩)] c m =
        .ok (alInsert m name ⟨.int (Int.tdiv (0 + k) 2)⟩, c + 1)) := by
  constructor
  · rw [getTraitDistances_singleton]
    simp [distOne, mapIndex, habs, defaultTrait, TraitType.kind, alInsert]
  · intro havg
    rw [mateTraits_singleton]
    simp [mateOne, mapIndex, habs, defaultTrait, TraitType.kind, havg,
          alInsert_alInsert]
    exact le_of_not_lt (by simpa using havg)

/-- C10 (witness): receiver with empty bag against other `{"t": Int 5}`. -/
theorem C10_absent_key_gains_default_witness :
    GetTraitDistances [("t", ⟨.int 5⟩)] [] [] =
      .ok (alInsert [] "t" defaultTrait, [("t", ((5 : Int).natAbs : Rat))]) ∧
    (¬ rngHigh.RandFloat 0 < 1/2 →
      MateTraits rngHigh [("t", ⟨.int 5⟩)] 0 [] =
        .ok (alInsert [] "t" ⟨.int (Int.tdiv (0 + 5) 2)⟩, 0 + 1)) :=
  C10_absent_key_gains_default rngHigh 0 "t" 5 [] rfl

lemma linkGene_applyOp_frame (g : LinkGene) (op : LinkOp) (g' : LinkGene)
    (h : g.applyOp op = .ok g') : g'.m_InnovationID = g.m_InnovationID := by
  cases op with
  | mutate tp r c =>
    simp only [LinkGene.applyOp] at h
    cases hm : MutateTraits r tp c g.m_Traits with
    | ok p => rw [hm] at h; simp [Except.map] at h; rw [← h]
    | error e => rw [hm] at h; simp [Except.map] at h
  | mate other r c =>
    simp only [LinkGene.applyOp] at h
    cases hm : MateTraits r other c g.m_Traits with
    | ok p => rw [hm] at h; simp [Except.map] at h; rw [← h]
    | error e => rw [hm] at h; simp [Except.map] at h
  | setWeight w =>
    simp only [LinkGene.applyOp, LinkGene.SetWeight] at h
    cases h
    rfl

lemma linkGene_runOps_frame (g : LinkGene) (ops : List LinkOp)
    (g' : LinkGene) (h : g.runOps ops = .ok g') :
    g'.m_InnovationID = g.m_InnovationID := by
  induction ops generalizing g with
  | nil =>
    simp only [LinkGene.runOps] at h
    cases h
    rfl
  | cons op rest ih =>
    simp only [LinkGene.runOps] at h
    cases hop : g.applyOp op with
    | error e => rw [hop] at h; cases h
    | ok g1 =>
      rw [hop] at h
      exact (ih g1 h).trans (linkGene_applyOp_frame g op g1 hop)

lemma neuronGene_applyOp_frame (g : NeuronGene) (op : NeuronOp)
    (g' : NeuronGene) (h : g.applyOp op = .ok g') :
    g'.m_ID = g.m_ID ∧ g'.m_Type = g.m_Type ∧ g'.m_SplitY = g.m_SplitY := by
  cases op with
  | mutate tp r c =>
    simp only [NeuronGene.applyOp] at h
    cases hm : MutateTraits r tp c g.m_Traits with
    | ok p => rw [hm] at h; simp [Except.map] at h; rw [← h]; exact ⟨rfl, rfl, rfl⟩
    | error e => rw [hm] at h; simp [Except.map] at h
  | mate other r c =>
    simp only [NeuronGene.applyOp] at h
    cases hm : MateTraits r other c g.m_Traits with
    | ok p => rw [hm] at h; simp [Except.map] at h; rw [← h]; exact ⟨rfl, rfl, rfl⟩
    | error e => rw [hm] at h; simp [Except.map] at h
  | init a b tc bias f =>
    simp only [NeuronGene.applyOp, NeuronGene.Init] at h
    cases h
    exact ⟨rfl, rfl, rfl⟩

lemma neuronGene_runOps_frame (g : NeuronGene) (ops : List NeuronOp)
    (g' : NeuronGene) (h : g.runOps ops = .ok g') :
    g'.m_ID = g.m_ID ∧ g'.m_Type = g.m_Type ∧ g'.m_SplitY = g.m_SplitY := by
  induction ops generalizing g with
  | nil =>
    simp only [NeuronGene.runOps] at h
    cases h
    exact ⟨rfl, rfl, rfl⟩
  | cons op rest ih =>
    simp only [NeuronGene.runOps] at h
    cases hop : g.applyOp op with
    | error e => rw [hop] at h; cases h
    | ok g1 =>
      rw [hop] at h
      obtain ⟨h1, h2, h3⟩ := ih g1 h
      obtain ⟨h4, h5, h6⟩ := neuronGene_applyOp_frame g op g1 hop
      exact ⟨h1.trans h4, h2.trans h5, h3.trans h6⟩

/-- C9: a link gene's `innovation_id`, and a neuron gene's `id`, role and
`split_depth`, are unchanged by any sequence of trait mutation, trait
merging, weight-set and activation-`Init` calls that completes without an
exception. -/
theorem C9_identity_fields_frame :
    (∀ (g : LinkGene) (ops : List LinkOp) (g' : LinkGene),
      g.runOps ops = .ok g' → g'.m_InnovationID = g.m_InnovationID) ∧
    (∀ (g : NeuronGene) (ops : List NeuronOp) (g' : NeuronGene),
      g.runOps ops = .ok g' →
      g'.m_ID = g.m_ID ∧ g'.m_Type = g.m_Type ∧
      g'.m_SplitY = g.m_SplitY) :=
  ⟨linkGene_runOps_frame, neuronGene_runOps_frame⟩

/-- C9 (witness): a concrete link gene mutated then re-weighted keeps its
innovation id; a concrete neuron gene mutated then activation-initialized
keeps its id, role and split depth. -/
theorem C9_identity_fields_frame_witness :
    (linkG1.m_InnovationID = linkG0.m_InnovationID) ∧
    (neuronG1.m_ID = neuronG0.m_ID ∧ neuronG1.m_Type = neuronG0.m_Type ∧
     neuronG1.m_SplitY = neuronG0.m_SplitY) :=
  ⟨C9_identity_fields_frame.1 linkG0
      [.mutate [("s", enumSpec)] rngZero 0, .setWeight 2] linkG1 rfl,
   C9_identity_fields_frame.2 neuronG0
      [.mutate [("s", enumSpec)] rngZero 0, .init 1 0 0 0 .TANH] neuronG1
      rfl⟩
